import Mathlib

/-!
Shallow embedding of the event-hub async receiver
(azure/eventhub/_async/receiver_async.py).

The transport library (uamqp ReceiveClientAsync) is an external
collaborator; it is modelled as an oracle environment: the outcome of the
batch pull, the per-message decode outcome, and the authentication/readiness
observations seen by each iteration of the startup polling loop.  The
receiver state tracks exactly the mutable fields of the Python object that
the lifecycle logic reads and writes (source, offset, redirected, error,
auto_reconnect, and the parameters the current handler was built from), and
every transport interaction is recorded in an operation trace so that
"without invoking the transport" claims are expressible.
-/

namespace EventHubs

/-- Raw transport-level exceptions (uamqp errors module).  LinkRedirect is a
subclass of LinkDetach in the transport library, which matters for the
except-clause matching in receive. -/
inductive BaseExc
  | linkRedirect (address : String) (retry : Bool)
  | linkDetach (retry : Bool) (msg : String)
  | connectionClose (retry : Bool) (msg : String)
  | messageHandlerError (msg : String)
  | other (msg : String)
deriving DecidableEq

/-- Any exception value flowing through the receiver: either a raw transport
exception or an EventHubError (message plus optional wrapped cause; in this
module the cause is always a raw transport exception when present). -/
inductive Exc
  | base (e : BaseExc)
  | eventHubError (msg : String) (cause : Option BaseExc)
deriving DecidableEq

/-- str(e) for a raw transport exception. -/
def BaseExc.str : BaseExc → String
  | .linkRedirect address _ => "Redirected: " ++ address
  | .linkDetach _ msg => msg
  | .connectionClose _ msg => msg
  | .messageHandlerError msg => msg
  | .other msg => msg

/-- str(e) for any exception value. -/
def Exc.str : Exc → String
  | .base e => e.str
  | .eventHubError msg _ => msg

/-- isinstance(e, (errors.LinkDetach, errors.ConnectionClose)): true for
LinkDetach, ConnectionClose and the LinkDetach subclass LinkRedirect. -/
def Exc.isLinkDetachFamily : Exc → Bool
  | .base (.linkRedirect _ _) => true
  | .base (.linkDetach _ _) => true
  | .base (.connectionClose _ _) => true
  | _ => false

/-- isinstance(e, errors.MessageHandlerError). -/
def Exc.isMessageHandlerError : Exc → Bool
  | .base (.messageHandlerError _) => true
  | _ => false

/-- e.action.retry, the retry disposition set on a detach-family exception by
the transport error policy. -/
def Exc.retryFlag : Exc → Bool
  | .base (.linkRedirect _ r) => r
  | .base (.linkDetach r _) => r
  | .base (.connectionClose r _) => r
  | _ => false

/-- The underlying raw transport exception, when the value is one. -/
def Exc.baseOf : Exc → Option BaseExc
  | .base e => some e
  | .eventHubError _ _ => none

/-- A raw transport message.  The marker is the offset annotation the decoded
EventData exposes; decodeFault, when set, is the exception raised while
constructing EventData from this message (decoding happens inside the same
try block as the pull, so such a fault reaches the same except clauses). -/
structure Message where
  marker : Int
  decodeFault : Option Exc
deriving DecidableEq

/-- Decoded event handed to the caller (EventData); offset is the resumption
marker taken from the message. -/
structure EventData where
  offset : Int
deriving DecidableEq

/-- EventData(message=m). -/
def EventData.ofMessage (m : Message) : EventData := ⟨m.marker⟩

/-- The parameters the currently owned transport handler (ReceiveClientAsync)
was constructed from: the target address, whether the alternate (iot)
credentials were used for auth, and the offset the link filter was built
from (source.set_filter(offset.selector())). -/
structure Handler where
  address : String
  altCreds : Bool
  filterFrom : Option Int
deriving DecidableEq

/-- Mutable state of the AsyncReceiver object. -/
structure Receiver where
  source : String
  offset : Option Int
  prefetch : Nat
  autoReconnect : Bool
  redirected : Option String
  error : Option Exc
  handler : Handler
deriving DecidableEq

/-- AsyncReceiver.__init__: stores the config, no stored redirect or error,
and builds the initial handler from the source with default credentials and
a filter from the initial offset. -/
def Receiver.init (source : String) (offset : Option Int) (prefetch : Nat)
    (autoReconnect : Bool) : Receiver :=
  { source := source, offset := offset, prefetch := prefetch,
    autoReconnect := autoReconnect, redirected := none, error := none,
    handler := { address := source, altCreds := false, filterFrom := offset } }

/-- One observable transport interaction. -/
inductive TransportOp
  | pullBatch (maxSize : Option Nat) (timeoutMs : Int)
  | handlerClose
  | handlerOpen
  | workCycle
deriving DecidableEq

/-- One observation of the transport auth/readiness state at a polling step:
whether the connection has CBS auth in flight, the pair returned by
handle_token_async, and the _client_ready_async result. -/
structure AuthStep where
  cbs : Bool
  timedOut : Bool
  inProgress : Bool
  clientReady : Bool
deriving DecidableEq

/-- AsyncReceiver.has_started evaluated at one observation: raises an
EventHubError on auth timeout, returns false while auth is in progress or
the client is not ready, true otherwise. -/
def has_started (s : AuthStep) : Except Exc Bool :=
  let t := s.cbs && s.timedOut
  let ip := s.cbs && s.inProgress
  if t then .error (.eventHubError "Authorization timeout." none)
  else if ip then .ok false
  else if !s.clientReady then .ok false
  else .ok true

/-- Outcome of the startup polling loop (while not has_started: work). -/
inductive OpenOutcome
  | ready
  | failed (e : Exc)
  | stillPolling
deriving DecidableEq

/-- The startup polling loop, driven by the finite oracle trace of auth
observations: checks has_started, and runs one connection work cycle before
each re-check; stillPolling means the trace ended with the loop still
running. -/
def pollReady : List AuthStep → OpenOutcome × List TransportOp
  | [] => (.stillPolling, [])
  | s :: rest =>
    match has_started s with
    | .error e => (.failed e, [])
    | .ok true => (.ready, [])
    | .ok false =>
      let pr := pollReady rest
      (pr.1, .workCycle :: pr.2)

/-- AsyncReceiver.open_async: when a redirect is stored, retargets the source
to the redirected address and rebuilds the handler there with the alternate
credentials and a filter from the current offset; then opens the handler and
polls to readiness. -/
def open_async (r : Receiver) (steps : List AuthStep) :
    Receiver × OpenOutcome × List TransportOp :=
  let r' :=
    match r.redirected with
    | some addr =>
      { r with source := addr,
               handler := { address := addr, altCreds := true,
                            filterFrom := r.offset } }
    | none => r
  let pr := pollReady steps
  (r', pr.1, TransportOp.handlerOpen :: pr.2)

/-- AsyncReceiver.reconnect_async: closes the current handler, rebuilds it
from the current source and current offset with the alternate credentials,
reopens and polls to readiness. -/
def reconnect_async (r : Receiver) (steps : List AuthStep) :
    Receiver × OpenOutcome × List TransportOp :=
  let pr := pollReady steps
  ({ r with handler := { address := r.source, altCreds := true,
                         filterFrom := r.offset } },
   pr.1,
   TransportOp.handlerClose :: TransportOp.handlerOpen :: pr.2)

/-- AsyncReceiver.close_async: no-op when an error is already stored;
otherwise classifies the optional exception (redirect stores the
instruction, EventHubError is stored as is, detach-family is wrapped with
its cause, any other exception is wrapped without cause, no exception
stores the generic closed error) and then closes the handler. -/
def close_async (r : Receiver) (exception : Option Exc) :
    Receiver × List TransportOp :=
  match r.error with
  | some _ => (r, [])
  | none =>
    let r' :=
      match exception with
      | some (.base (.linkRedirect addr _)) => { r with redirected := some addr }
      | some (.eventHubError m c) => { r with error := some (.eventHubError m c) }
      | some (.base (.linkDetach retry m)) =>
        { r with error := some (.eventHubError (BaseExc.linkDetach retry m).str
                                 (some (.linkDetach retry m))) }
      | some (.base (.connectionClose retry m)) =>
        { r with error := some (.eventHubError (BaseExc.connectionClose retry m).str
                                 (some (.connectionClose retry m))) }
      | some e => { r with error := some (.eventHubError e.str none) }
      | none =>
        { r with error := some (.eventHubError "This receive handler is now closed." none) }
    (r', [TransportOp.handlerClose])

/-- timeout_ms = 1000 * timeout if timeout else 0 (Python truthiness: both
None and 0 take the else branch). -/
def timeoutMs : Option Int → Int
  | none => 0
  | some t => if t ≠ 0 then 1000 * t else 0

/-- State of the decode loop over a pulled batch: receiver after the offset
assignments so far, accumulated data_batch, the trace of offset assignments
in order, and the exception that interrupted the loop, if any. -/
structure DecodeState where
  receiver : Receiver
  batch : List EventData
  trace : List Int
  fault : Option Exc
deriving DecidableEq

/-- The for loop of receive: for each message, construct EventData, assign
self.offset to its marker and append to the batch; a decode fault stops the
loop with the already-accumulated batch and offset kept. -/
def decodeLoop (r : Receiver) (acc : List EventData) (tr : List Int) :
    List Message → DecodeState
  | [] => ⟨r, acc, tr, none⟩
  | m :: rest =>
    match m.decodeFault with
    | some e => ⟨r, acc, tr, some e⟩
    | none =>
      let ev := EventData.ofMessage m
      decodeLoop { r with offset := some ev.offset } (acc ++ [ev])
        (tr ++ [ev.offset]) rest

/-- Outcome of one receive call: a returned batch, a raised exception, or a
readiness loop that outran its oracle trace. -/
inductive ReceiveOutcome
  | batch (events : List EventData)
  | raised (e : Exc)
  | hung
deriving DecidableEq

/-- The error-then-raise shutdown path shared by the fatal arms of receive:
error = EventHubError(...); close_async(exception=error); raise error. -/
def closeRaise (r : Receiver) (err : Exc) :
    Receiver × ReceiveOutcome × List TransportOp :=
  let c := close_async r (some err)
  (c.1, .raised err, c.2)

/-- The reconnect-and-return path of receive: reconnect_async, then return
the batch accumulated so far; a failure inside the reconnect propagates raw
(it is not stored). -/
def applyReconnect (r : Receiver) (acc : List EventData)
    (steps : List AuthStep) : Receiver × ReceiveOutcome × List TransportOp :=
  let rr := reconnect_async r steps
  match rr.2.1 with
  | .ready => (rr.1, .batch acc, rr.2.2)
  | .failed e => (rr.1, .raised e, rr.2.2)
  | .stillPolling => (rr.1, .hung, rr.2.2)

/-- The except clauses of receive, applied to the exception e raised inside
the try block, with acc the batch accumulated before the fault.  Matching
order follows the source: the detach family first (retry and auto-reconnect
gate the reconnect path, otherwise wrap, store via close_async and raise),
then MessageHandlerError (auto-reconnect alone gates the reconnect path),
then the catch-all (wraps without cause, stores and raises). -/
def handleFault (r : Receiver) (acc : List EventData) (e : Exc)
    (steps : List AuthStep) : Receiver × ReceiveOutcome × List TransportOp :=
  if e.isLinkDetachFamily then
    if e.retryFlag && r.autoReconnect then applyReconnect r acc steps
    else closeRaise r (.eventHubError e.str e.baseOf)
  else if e.isMessageHandlerError then
    if r.autoReconnect then applyReconnect r acc steps
    else closeRaise r (.eventHubError e.str e.baseOf)
  else closeRaise r (.eventHubError ("Receive failed: " ++ e.str) none)

/-- The oracle environment of one receive call: the result of the batch pull
(raw messages, or the exception it raised) and the auth observations a
reconnect triggered by this call would see. -/
structure Env where
  pull : Except Exc (List Message)
  reconnectSteps : List AuthStep

/-- Result of one receive call: the receiver afterwards, the outcome, the
transport operations performed, and the trace of offset assignments. -/
structure ReceiveResult where
  receiver : Receiver
  outcome : ReceiveOutcome
  ops : List TransportOp
  offsetTrace : List Int
deriving DecidableEq

/-- AsyncReceiver.receive: raises the stored error immediately when present;
otherwise pulls a batch with the converted timeout, decodes each message
advancing the offset, and returns the batch; any exception from the pull or
the decode loop goes through the except clauses. -/
def receive (r : Receiver) (max_batch_size : Option Nat)
    (timeout : Option Int) (env : Env) : ReceiveResult :=
  match r.error with
  | some err => ⟨r, .raised err, [], []⟩
  | none =>
    let pullOp := TransportOp.pullBatch max_batch_size (timeoutMs timeout)
    match env.pull with
    | .error e =>
      let h := handleFault r [] e env.reconnectSteps
      ⟨h.1, h.2.1, pullOp :: h.2.2, []⟩
    | .ok msgs =>
      let d := decodeLoop r [] [] msgs
      match d.fault with
      | none => ⟨d.receiver, .batch d.batch, [pullOp], d.trace⟩
      | some e =>
        let h := handleFault d.receiver d.batch e env.reconnectSteps
        ⟨h.1, h.2.1, pullOp :: h.2.2, d.trace⟩

/-- The offset value after assigning, in order, each marker of a list on top
of a starting value: the last marker when the list is nonempty, else the
start. -/
def finalOffset (start : Option Int) (markers : List Int) : Option Int :=
  markers.foldl (fun _ v => some v) start

/-! Concrete fixtures used by the closed witnesses and counterexamples. -/

/-- A sample partition source address. -/
def demoSource : String :=
  "amqps://ns.servicebus.windows.net/hub/ConsumerGroups/cg/Partitions/0"

/-- A freshly constructed receiver positioned at offset 1. -/
def demoReceiver : Receiver := Receiver.init demoSource (some 1) 300 true

/-- A receiver that already holds a stored terminal error. -/
def erroredReceiver : Receiver :=
  { demoReceiver with error := some (.eventHubError "boom" none) }

/-- An auth observation where startup is already complete at the poll. -/
def readyStep : AuthStep := ⟨false, false, false, true⟩

/-- An auth observation where token negotiation is still in progress. -/
def stallStep : AuthStep := ⟨true, false, true, false⟩

/-- An auth observation where token negotiation has exceeded its timeout. -/
def timeoutStep : AuthStep := ⟨true, true, false, false⟩

/-- An environment whose pull yields no messages. -/
def emptyEnv : Env := ⟨.ok [], []⟩

/-- An environment whose pull fails with a retryable link detach and whose
reconnect would come up immediately. -/
def detachEnv : Env := ⟨.error (.base (.linkDetach true "link detached")), [readyStep]⟩

/-- An environment whose pull fails with a non-retryable link detach. -/
def fatalEnv : Env := ⟨.error (.base (.linkDetach false "server detach")), []⟩

/-- An environment whose pull fails with a link redirect carrying a retry
disposition, reconnect coming up immediately. -/
def redirectEnv : Env :=
  ⟨.error (.base (.linkRedirect "amqps://alt.host/hub/ConsumerGroups/cg/Partitions/0" true)),
   [readyStep]⟩

/-- An environment whose pull yields two clean messages at markers 2 and 3. -/
def twoMsgEnv : Env := ⟨.ok [⟨2, none⟩, ⟨3, none⟩], []⟩

/-! Basic unfolding lemmas about the embedded operations. -/

theorem finalOffset_nil (s : Option Int) : finalOffset s [] = s := rfl

theorem finalOffset_cons (s : Option Int) (a : Int) (l : List Int) :
    finalOffset s (a :: l) = finalOffset (some a) l := rfl

theorem finalOffset_of_ne_nil (l : List Int) (h : l ≠ []) (s : Option Int) :
    finalOffset s l = l.getLast? := by
  induction l generalizing s with
  | nil => cases h rfl
  | cons a tl ih =>
    cases tl with
    | nil => rfl
    | cons b tl2 =>
      rw [finalOffset_cons, ih (by simp) (some a), List.getLast?_cons_cons]

theorem receive_errored (r : Receiver) (mb : Option Nat) (t : Option Int)
    (env : Env) (err : Exc) (h : r.error = some err) :
    receive r mb t env = ⟨r, .raised err, [], []⟩ := by
  unfold receive
  rw [h]

theorem decodeLoop_clean (msgs : List Message) :
    ∀ (r : Receiver) (acc : List EventData) (tr : List Int),
    (∀ m ∈ msgs, m.decodeFault = none) →
    decodeLoop r acc tr msgs =
      ⟨{ r with offset := finalOffset r.offset (msgs.map Message.marker) },
       acc ++ msgs.map EventData.ofMessage, tr ++ msgs.map Message.marker,
       none⟩ := by
  induction msgs with
  | nil => intro r acc tr _; simp [decodeLoop, finalOffset_nil]
  | cons m rest ih =>
    intro r acc tr h
    have hm : m.decodeFault = none := h m (by simp)
    simp only [decodeLoop, hm]
    rw [ih _ _ _ (fun x hx => h x (by simp [hx]))]
    simp [EventData.ofMessage, finalOffset_cons, List.append_assoc]

theorem decodeLoop_fault (good : List Message) :
    ∀ (r : Receiver) (acc : List EventData) (tr : List Int) (bad : Message)
      (rest : List Message) (e : Exc),
    (∀ m ∈ good, m.decodeFault = none) → bad.decodeFault = some e →
    decodeLoop r acc tr (good ++ bad :: rest) =
      ⟨{ r with offset := finalOffset r.offset (good.map Message.marker) },
       acc ++ good.map EventData.ofMessage, tr ++ good.map Message.marker,
       some e⟩ := by
  induction good with
  | nil =>
    intro r acc tr bad rest e _ hb
    simp [decodeLoop, hb, finalOffset_nil]
  | cons m g ih =>
    intro r acc tr bad rest e h hb
    have hm : m.decodeFault = none := h m (by simp)
    simp only [List.cons_append, decodeLoop, hm, List.append_eq]
    rw [ih _ _ _ _ _ _ (fun x hx => h x (by simp [hx])) hb]
    simp [EventData.ofMessage, finalOffset_cons, List.append_assoc]

theorem receive_ok_clean (r : Receiver) (mb : Option Nat) (t : Option Int)
    (env : Env) (msgs : List Message) (hne : r.error = none)
    (hp : env.pull = .ok msgs) (hc : ∀ m ∈ msgs, m.decodeFault = none) :
    receive r mb t env =
      ⟨{ r with offset := finalOffset r.offset (msgs.map Message.marker) },
       .batch (msgs.map EventData.ofMessage),
       [.pullBatch mb (timeoutMs t)], msgs.map Message.marker⟩ := by
  simp only [receive, hne, hp, decodeLoop_clean msgs r [] [] hc]
  simp

theorem receive_pull_error (r : Receiver) (mb : Option Nat) (t : Option Int)
    (env : Env) (e : Exc) (hne : r.error = none) (hp : env.pull = .error e) :
    receive r mb t env =
      ⟨(handleFault r [] e env.reconnectSteps).1,
       (handleFault r [] e env.reconnectSteps).2.1,
       .pullBatch mb (timeoutMs t) :: (handleFault r [] e env.reconnectSteps).2.2,
       []⟩ := by
  unfold receive
  rw [hne, hp]

theorem receive_decode_fault (r : Receiver) (mb : Option Nat) (t : Option Int)
    (env : Env) (good : List Message) (bad : Message) (rest : List Message)
    (e : Exc) (hne : r.error = none) (hp : env.pull = .ok (good ++ bad :: rest))
    (hg : ∀ m ∈ good, m.decodeFault = none) (hb : bad.decodeFault = some e) :
    receive r mb t env =
      ⟨(handleFault { r with offset := finalOffset r.offset (good.map Message.marker) }
          (good.map EventData.ofMessage) e env.reconnectSteps).1,
       (handleFault { r with offset := finalOffset r.offset (good.map Message.marker) }
          (good.map EventData.ofMessage) e env.reconnectSteps).2.1,
       .pullBatch mb (timeoutMs t) ::
         (handleFault { r with offset := finalOffset r.offset (good.map Message.marker) }
            (good.map EventData.ofMessage) e env.reconnectSteps).2.2,
       good.map Message.marker⟩ := by
  simp only [receive, hne, hp, decodeLoop_fault good r [] [] bad rest e hg hb]
  simp

theorem applyReconnect_fst (r : Receiver) (acc : List EventData)
    (steps : List AuthStep) :
    (applyReconnect r acc steps).1 =
      { r with handler := { address := r.source, altCreds := true,
                            filterFrom := r.offset } } := by
  unfold applyReconnect reconnect_async
  cases h : (pollReady steps).1 <;> simp [h]

theorem applyReconnect_ready (r : Receiver) (acc : List EventData)
    (steps : List AuthStep) (h : (pollReady steps).1 = .ready) :
    applyReconnect r acc steps =
      ({ r with handler := { address := r.source, altCreds := true,
                             filterFrom := r.offset } },
       .batch acc,
       .handlerClose :: .handlerOpen :: (pollReady steps).2) := by
  simp only [applyReconnect, reconnect_async, h]

theorem close_async_fst_offset (r : Receiver) (exc : Option Exc) :
    (close_async r exc).1.offset = r.offset := by
  unfold close_async
  split
  · rfl
  · split <;> rfl

theorem closeRaise_eq (r : Receiver) (m : String) (c : Option BaseExc)
    (hne : r.error = none) :
    closeRaise r (.eventHubError m c) =
      ({ r with error := some (.eventHubError m c) },
       .raised (.eventHubError m c), [.handlerClose]) := by
  unfold closeRaise close_async
  rw [hne]

theorem not_detach_of_handler (e : Exc) (h : e.isMessageHandlerError = true) :
    e.isLinkDetachFamily = false := by
  cases e with
  | base b =>
    cases b <;> simp_all [Exc.isMessageHandlerError, Exc.isLinkDetachFamily]
  | eventHubError m c => simp [Exc.isLinkDetachFamily]

theorem handleFault_retry_detach (r : Receiver) (acc : List EventData)
    (e : Exc) (steps : List AuthStep) (hd : e.isLinkDetachFamily = true)
    (hr : e.retryFlag = true) (ha : r.autoReconnect = true) :
    handleFault r acc e steps = applyReconnect r acc steps := by
  simp [handleFault, hd, hr, ha]

theorem handleFault_retry_handler (r : Receiver) (acc : List EventData)
    (e : Exc) (steps : List AuthStep) (hh : e.isMessageHandlerError = true)
    (ha : r.autoReconnect = true) :
    handleFault r acc e steps = applyReconnect r acc steps := by
  simp [handleFault, not_detach_of_handler e hh, hh, ha]

theorem handleFault_fatal_detach (r : Receiver) (acc : List EventData)
    (e : Exc) (steps : List AuthStep) (hd : e.isLinkDetachFamily = true)
    (hfat : e.retryFlag = false ∨ r.autoReconnect = false) :
    handleFault r acc e steps =
      closeRaise r (.eventHubError e.str e.baseOf) := by
  have hb : (e.retryFlag && r.autoReconnect) = false := by
    cases hfat with
    | inl h => simp [h]
    | inr h => simp [h]
  simp [handleFault, hd, hb]

theorem handleFault_fatal_handler (r : Receiver) (acc : List EventData)
    (e : Exc) (steps : List AuthStep) (hh : e.isMessageHandlerError = true)
    (ha : r.autoReconnect = false) :
    handleFault r acc e steps =
      closeRaise r (.eventHubError e.str e.baseOf) := by
  simp [handleFault, not_detach_of_handler e hh, hh, ha]

theorem handleFault_unclassified (r : Receiver) (acc : List EventData)
    (e : Exc) (steps : List AuthStep) (hd : e.isLinkDetachFamily = false)
    (hh : e.isMessageHandlerError = false) :
    handleFault r acc e steps =
      closeRaise r (.eventHubError ("Receive failed: " ++ e.str) none) := by
  simp [handleFault, hd, hh]

theorem handleFault_fst_offset (r : Receiver) (acc : List EventData)
    (e : Exc) (steps : List AuthStep) :
    (handleFault r acc e steps).1.offset = r.offset := by
  unfold handleFault closeRaise
  split
  · split
    · rw [applyReconnect_fst]
    · exact close_async_fst_offset r _
  · split
    · split
      · rw [applyReconnect_fst]
      · exact close_async_fst_offset r _
    · exact close_async_fst_offset r _

theorem receive_head_pull (r : Receiver) (mb : Option Nat) (t : Option Int)
    (env : Env) (hne : r.error = none) :
    (receive r mb t env).ops.head? = some (.pullBatch mb (timeoutMs t)) := by
  unfold receive
  rw [hne]
  cases env.pull with
  | error e => rfl
  | ok msgs => cases h : (decodeLoop r [] [] msgs).fault <;> simp [h]

theorem pollReady_timeout (pre : List AuthStep) (s : AuthStep)
    (rest : List AuthStep)
    (hpre : ∀ x ∈ pre, x.cbs = true ∧ x.timedOut = false ∧ x.inProgress = true)
    (hc : s.cbs = true) (ht : s.timedOut = true) :
    pollReady (pre ++ s :: rest) =
      (.failed (.eventHubError "Authorization timeout." none),
       List.replicate pre.length .workCycle) := by
  induction pre with
  | nil => simp [pollReady, has_started, hc, ht]
  | cons x xs ih =>
    obtain ⟨hx1, hx2, hx3⟩ := hpre x (by simp)
    have hrec := ih (fun y hy => hpre y (by simp [hy]))
    simp [pollReady, has_started, hx1, hx2, hx3, hrec, List.replicate_succ]

/-! Claim theorems. -/

/-- C1: when the transport pull fails with a link-detach or connection-close
whose retry flag is set, or with a handler-level error, and auto-reconnect
is enabled (and the reconnect itself comes up), receive performs the
reconnect (handler close then reopen) and returns normally with the batch
accumulated so far in that call (empty for a pull fault, the decoded prefix
for a mid-batch fault) instead of raising; no error is stored afterward, so
a subsequent receive begins with a transport pull instead of
short-circuiting on a stored error. -/
theorem C1_retryable_fault_reconnects (r : Receiver) (mb : Option Nat)
    (t : Option Int) (env : Env) (e : Exc) (hne : r.error = none)
    (ha : r.autoReconnect = true)
    (hclass : (e.isLinkDetachFamily = true ∧ e.retryFlag = true) ∨
      e.isMessageHandlerError = true)
    (hready : (pollReady env.reconnectSteps).1 = .ready) :
    (env.pull = .error e →
      receive r mb t env =
        ⟨{ r with handler := { address := r.source, altCreds := true,
                               filterFrom := r.offset } },
         .batch [],
         [.pullBatch mb (timeoutMs t), .handlerClose, .handlerOpen] ++
           (pollReady env.reconnectSteps).2,
         []⟩ ∧
      (receive r mb t env).receiver.error = none ∧
      ∀ (mb' : Option Nat) (t' : Option Int) (env' : Env),
        (receive (receive r mb t env).receiver mb' t' env').ops.head? =
          some (.pullBatch mb' (timeoutMs t'))) ∧
    (∀ good bad rest, env.pull = .ok (good ++ bad :: rest) →
      (∀ m ∈ good, m.decodeFault = none) → bad.decodeFault = some e →
      (receive r mb t env).outcome = .batch (good.map EventData.ofMessage) ∧
      (receive r mb t env).receiver.error = none) := by
  have hHF : ∀ (r' : Receiver), r'.autoReconnect = true →
      ∀ acc, handleFault r' acc e env.reconnectSteps =
        applyReconnect r' acc env.reconnectSteps := by
    intro r' ha' acc
    cases hclass with
    | inl h => exact handleFault_retry_detach r' acc e _ h.1 h.2 ha'
    | inr h => exact handleFault_retry_handler r' acc e _ h ha'
  constructor
  · intro hp
    have h1 := receive_pull_error r mb t env e hne hp
    rw [hHF r ha [], applyReconnect_ready _ _ _ hready] at h1
    refine ⟨h1, ?_, ?_⟩
    · rw [h1]; exact hne
    · intro mb' t' env'
      rw [h1]
      exact receive_head_pull _ mb' t' env' hne
  · intro good bad rest hp hg hb
    have h1 := receive_decode_fault r mb t env good bad rest e hne hp hg hb
    rw [hHF { r with offset := finalOffset r.offset (good.map Message.marker) } ha
      (good.map EventData.ofMessage), applyReconnect_ready _ _ _ hready] at h1
    rw [h1]
    exact ⟨rfl, hne⟩

/-- C1 witness: a retryable link detach with auto-reconnect enabled makes
receive return an empty batch with no stored error. -/
theorem C1_witness :
    demoReceiver.error = none ∧ demoReceiver.autoReconnect = true ∧
    (pollReady detachEnv.reconnectSteps).1 = .ready ∧
    (receive demoReceiver none none detachEnv).outcome = .batch [] ∧
    (receive demoReceiver none none detachEnv).receiver.error = none ∧
    (receive (receive demoReceiver none none detachEnv).receiver none none
        emptyEnv).ops.head? = some (.pullBatch none 0) := by
  have h := C1_retryable_fault_reconnects demoReceiver none none detachEnv
    (.base (.linkDetach true "link detached")) rfl rfl (Or.inl ⟨rfl, rfl⟩) rfl
  obtain ⟨h1, h2, h3⟩ := h.1 rfl
  exact ⟨rfl, rfl, rfl, by rw [h1], h2, h3 none none emptyEnv⟩

/-- C2: on a successful receive the offset is assigned exactly once per
decoded event in delivery order (the assignment trace equals the marker
list of the returned batch), and afterwards equals the marker of the last
returned event, strictly greater than the offset before the call whenever
the batch is nonempty and the transport delivers markers beyond the current
position; on a failure mid-call the offset stays at the last successfully
decoded event (the handling of the fault neither advances nor rolls it
back). -/
theorem C2_position_tracking (r : Receiver) (mb : Option Nat) (t : Option Int)
    (env : Env) (hne : r.error = none) :
    (∀ msgs, env.pull = .ok msgs → (∀ m ∈ msgs, m.decodeFault = none) →
      (receive r mb t env).offsetTrace = msgs.map Message.marker ∧
      (receive r mb t env).outcome = .batch (msgs.map EventData.ofMessage) ∧
      (receive r mb t env).receiver.offset =
        finalOffset r.offset (msgs.map Message.marker) ∧
      (msgs ≠ [] → (receive r mb t env).receiver.offset =
        (msgs.map Message.marker).getLast?) ∧
      (∀ p, r.offset = some p → (∀ m ∈ msgs, p < m.marker) → msgs ≠ [] →
        ∀ q, (receive r mb t env).receiver.offset = some q → p < q)) ∧
    (∀ good bad rest e, env.pull = .ok (good ++ bad :: rest) →
      (∀ m ∈ good, m.decodeFault = none) → bad.decodeFault = some e →
      (receive r mb t env).receiver.offset =
        finalOffset r.offset (good.map Message.marker) ∧
      (receive r mb t env).offsetTrace = good.map Message.marker) := by
  constructor
  · intro msgs hp hc
    have h1 := receive_ok_clean r mb t env msgs hne hp hc
    have hmark : msgs ≠ [] → (msgs.map Message.marker) ≠ [] := by
      intro h hcon
      exact h (List.map_eq_nil_iff.mp hcon)
    have hlast : msgs ≠ [] → (receive r mb t env).receiver.offset =
        (msgs.map Message.marker).getLast? := by
      intro h
      rw [h1]
      exact finalOffset_of_ne_nil _ (hmark h) r.offset
    refine ⟨by rw [h1], by rw [h1], by rw [h1], hlast, ?_⟩
    intro p hp' hlt hnil q hq
    rw [hlast hnil] at hq
    have hq' : ((msgs.map Message.marker).getLast (hmark hnil)) = q := by
      have := List.getLast?_eq_getLast_of_ne_nil (hmark hnil)
      rw [this] at hq
      exact Option.some.inj hq
    have hmem : q ∈ msgs.map Message.marker := by
      rw [← hq']
      exact List.getLast_mem (hmark hnil)
    obtain ⟨m, hm, hmq⟩ := List.mem_map.mp hmem
    rw [← hmq]
    exact hlt m hm
  · intro good bad rest e hp hg hb
    have h1 := receive_decode_fault r mb t env good bad rest e hne hp hg hb
    constructor
    · rw [h1]
      exact handleFault_fst_offset _ _ _ _
    · rw [h1]

/-- C2 witness: pulling two clean messages at markers 2 and 3 from a
receiver positioned at 1 yields assignment trace 2 then 3, the batch of the
two events, and a final offset 3, strictly above the prior position. -/
theorem C2_witness :
    demoReceiver.error = none ∧ demoReceiver.offset = some 1 ∧
    (receive demoReceiver (some 10) (some 5) twoMsgEnv).offsetTrace = [2, 3] ∧
    (receive demoReceiver (some 10) (some 5) twoMsgEnv).outcome =
      .batch [⟨2⟩, ⟨3⟩] ∧
    (receive demoReceiver (some 10) (some 5) twoMsgEnv).receiver.offset =
      some 3 ∧ (1 : Int) < 3 := by
  obtain ⟨h1, h2, h3, h4, h5⟩ :=
    (C2_position_tracking demoReceiver (some 10) (some 5) twoMsgEnv rfl).1
      [⟨2, none⟩, ⟨3, none⟩] rfl (by decide)
  refine ⟨rfl, rfl, by rw [h1]; decide, by rw [h2]; decide, by rw [h3]; decide, ?_⟩
  exact h5 1 rfl (by decide) (by decide) 3 (by rw [h3]; decide)

/-- C3: a disconnect whose retry flag is unset, a retryable disconnect or
handler-level error while auto-reconnect is disabled, or any unclassified
exception makes receive record a terminal error, close the transport link,
and raise that same error; every subsequent receive then fails immediately
with the stored error performing no transport operation. -/
theorem C3_fatal_fault_stores_error (r : Receiver) (mb : Option Nat)
    (t : Option Int) (env : Env) (e : Exc) (hne : r.error = none)
    (hp : env.pull = .error e)
    (hclass :
      (e.isLinkDetachFamily = true ∧
        (e.retryFlag = false ∨ r.autoReconnect = false)) ∨
      (e.isMessageHandlerError = true ∧ r.autoReconnect = false) ∨
      (e.isLinkDetachFamily = false ∧ e.isMessageHandlerError = false)) :
    (receive r mb t env).receiver.error.isSome = true ∧
    TransportOp.handlerClose ∈ (receive r mb t env).ops ∧
    ∀ err, (receive r mb t env).receiver.error = some err →
      (receive r mb t env).outcome = .raised err ∧
      ∀ (mb' : Option Nat) (t' : Option Int) (env' : Env),
        receive (receive r mb t env).receiver mb' t' env' =
          ⟨(receive r mb t env).receiver, .raised err, [], []⟩ := by
  have hcr : ∃ M C, handleFault r [] e env.reconnectSteps =
      closeRaise r (.eventHubError M C) := by
    rcases hclass with ⟨hd, hfat⟩ | ⟨hh, ha⟩ | ⟨hd, hh⟩
    · exact ⟨e.str, e.baseOf, handleFault_fatal_detach r [] e _ hd hfat⟩
    · exact ⟨e.str, e.baseOf, handleFault_fatal_handler r [] e _ hh ha⟩
    · exact ⟨"Receive failed: " ++ e.str, none,
        handleFault_unclassified r [] e _ hd hh⟩
  obtain ⟨M, C, hHF⟩ := hcr
  have h1 := receive_pull_error r mb t env e hne hp
  rw [hHF, closeRaise_eq r M C hne] at h1
  rw [h1]
  refine ⟨rfl, by simp, ?_⟩
  intro err herr
  obtain rfl : Exc.eventHubError M C = err := Option.some.inj herr
  exact ⟨rfl, fun mb' t' env' => receive_errored _ mb' t' env' _ rfl⟩

/-- C3 witness: a link detach with the retry flag unset stores a wrapped
terminal error, closes the handler, raises that error, and a repeat receive
fails at once with the same error and no transport operation. -/
theorem C3_witness :
    demoReceiver.error = none ∧
    (receive demoReceiver none none fatalEnv).receiver.error.isSome = true ∧
    TransportOp.handlerClose ∈ (receive demoReceiver none none fatalEnv).ops ∧
    (receive demoReceiver none none fatalEnv).outcome =
      .raised (.eventHubError "server detach"
        (some (.linkDetach false "server detach"))) ∧
    receive (receive demoReceiver none none fatalEnv).receiver none none
        emptyEnv =
      ⟨(receive demoReceiver none none fatalEnv).receiver,
       .raised (.eventHubError "server detach"
         (some (.linkDetach false "server detach"))), [], []⟩ := by
  obtain ⟨h1, h2, h3⟩ := C3_fatal_fault_stores_error demoReceiver none none
    fatalEnv (.base (.linkDetach false "server detach")) rfl rfl
    (Or.inl ⟨rfl, Or.inl rfl⟩)
  obtain ⟨h4, h5⟩ := h3 (.eventHubError "server detach"
    (some (.linkDetach false "server detach"))) (by decide)
  exact ⟨rfl, h1, h2, h4, h5 none none emptyEnv⟩

/-- C4 counterexample: a redirect failure with the retry disposition during
receive, with auto-reconnect enabled, is recovered without a failure, but
the rebuilt handler targets the original source address, not the redirected
address carried by the redirect: the claim that the receiver reconnects to
the redirected address is false at this input. -/
theorem C4_counterexample :
    (receive demoReceiver none none redirectEnv).outcome = .batch [] ∧
    (receive demoReceiver none none redirectEnv).receiver.handler.address =
      demoSource ∧
    ¬ (receive demoReceiver none none redirectEnv).receiver.handler.address =
        "amqps://alt.host/hub/ConsumerGroups/cg/Partitions/0" := by
  decide

/-- C4 amended: when a redirect failure with the retry disposition arrives
during receive and auto-reconnect is enabled (and the reconnect comes up),
the receiver reconnects with the alternate credentials but to its current
source address — the redirected address is not adopted on this path — and
the caller observes no failure from that receive call (empty batch, no
stored error). -/
theorem C4_redirect_reconnects_to_source (r : Receiver) (mb : Option Nat)
    (t : Option Int) (env : Env) (addr : String) (hne : r.error = none)
    (ha : r.autoReconnect = true)
    (hp : env.pull = .error (.base (.linkRedirect addr true)))
    (hready : (pollReady env.reconnectSteps).1 = .ready) :
    receive r mb t env =
      ⟨{ r with handler := { address := r.source, altCreds := true,
                             filterFrom := r.offset } },
       .batch [],
       [.pullBatch mb (timeoutMs t), .handlerClose, .handlerOpen] ++
         (pollReady env.reconnectSteps).2,
       []⟩ ∧
    (receive r mb t env).receiver.error = none := by
  have h1 := receive_pull_error r mb t env _ hne hp
  rw [handleFault_retry_detach r [] (.base (.linkRedirect addr true))
    env.reconnectSteps rfl rfl ha, applyReconnect_ready _ _ _ hready] at h1
  exact ⟨h1, by rw [h1]; exact hne⟩

/-- C4 witness: a concrete redirect during receive ends with an empty batch,
no stored error, alternate credentials, and the original source address on
the rebuilt handler. -/
theorem C4_witness :
    demoReceiver.error = none ∧ demoReceiver.autoReconnect = true ∧
    (receive demoReceiver none none redirectEnv).outcome = .batch [] ∧
    (receive demoReceiver none none redirectEnv).receiver.error = none ∧
    (receive demoReceiver none none redirectEnv).receiver.handler.altCreds =
      true ∧
    (receive demoReceiver none none redirectEnv).receiver.handler.address =
      demoSource := by
  obtain ⟨h1, h2⟩ := C4_redirect_reconnects_to_source demoReceiver none none
    redirectEnv "amqps://alt.host/hub/ConsumerGroups/cg/Partitions/0"
    rfl rfl rfl rfl
  exact ⟨rfl, rfl, by rw [h1], h2, by rw [h1], by rw [h1]; rfl⟩

/-- C5 counterexample: when authentication times out during open, the call
fails with the authorization timeout error, but no terminal error is stored
afterward — the receiver is not in the Errored state, refuting the claim. -/
theorem C5_counterexample :
    (open_async demoReceiver [timeoutStep]).2.1 =
      .failed (.eventHubError "Authorization timeout." none) ∧
    (open_async demoReceiver [timeoutStep]).1.error = none := by
  decide

/-- C5 amended: when authentication stays in progress and then exceeds its
timeout during open, the call fails with the authorization timeout error
and performs no transport work cycle after the failing poll, but the error
is not stored: the receiver error field is unchanged (not Errored), so a
subsequent receive on a receiver with no stored error still begins with a
transport pull. -/
theorem C5_auth_timeout_not_stored (r : Receiver) (pre : List AuthStep)
    (s : AuthStep) (rest : List AuthStep) (hnr : r.redirected = none)
    (hpre : ∀ x ∈ pre, x.cbs = true ∧ x.timedOut = false ∧ x.inProgress = true)
    (hc : s.cbs = true) (ht : s.timedOut = true) :
    open_async r (pre ++ s :: rest) =
      (r, .failed (.eventHubError "Authorization timeout." none),
       .handlerOpen :: List.replicate pre.length .workCycle) ∧
    (open_async r (pre ++ s :: rest)).1.error = r.error ∧
    (r.error = none → ∀ (mb : Option Nat) (t : Option Int) (env : Env),
      (receive (open_async r (pre ++ s :: rest)).1 mb t env).ops.head? =
        some (.pullBatch mb (timeoutMs t))) := by
  have h : open_async r (pre ++ s :: rest) =
      (r, (pollReady (pre ++ s :: rest)).1,
       .handlerOpen :: (pollReady (pre ++ s :: rest)).2) := by
    unfold open_async
    rw [hnr]
  rw [h, pollReady_timeout pre s rest hpre hc ht]
  exact ⟨rfl, rfl, fun hne mb t env => receive_head_pull r mb t env hne⟩

/-- C5 witness: one in-progress poll followed by a timed-out poll makes open
fail with the authorization timeout error after exactly one work cycle,
with the receiver error still unset. -/
theorem C5_witness :
    demoReceiver.redirected = none ∧
    open_async demoReceiver [stallStep, timeoutStep] =
      (demoReceiver, .failed (.eventHubError "Authorization timeout." none),
       [.handlerOpen, .workCycle]) ∧
    (open_async demoReceiver [stallStep, timeoutStep]).1.error = none := by
  obtain ⟨h1, h2, h3⟩ := C5_auth_timeout_not_stored demoReceiver [stallStep]
    timeoutStep [] rfl (by decide) rfl rfl
  exact ⟨rfl, h1, h2⟩

/-- C6 counterexample: close with a redirect exception and no prior stored
error stores the instruction and records no terminal error, but it still
closes the transport link, refuting the claim that the redirect path
returns without closing it. -/
theorem C6_counterexample :
    (close_async demoReceiver
        (some (.base (.linkRedirect "amqps://alt.host/hub" true)))).1.redirected =
      some "amqps://alt.host/hub" ∧
    (close_async demoReceiver
        (some (.base (.linkRedirect "amqps://alt.host/hub" true)))).1.error =
      none ∧
    (close_async demoReceiver
        (some (.base (.linkRedirect "amqps://alt.host/hub" true)))).2 =
      [.handlerClose] := by
  decide

/-- C6 amended: with no prior stored error, close with a redirect stores the
redirect instruction and records no terminal error but still closes the
transport link; with any other argument it records a terminal error — the
EventHubError itself, a wrap with cause for detach-family exceptions, a
wrap without cause for anything else, or the generic closed error when no
exception is supplied — and closes the transport link. -/
theorem C6_close_classification (r : Receiver) (hne : r.error = none) :
    (∀ addr retry, close_async r (some (.base (.linkRedirect addr retry))) =
      ({ r with redirected := some addr }, [.handlerClose])) ∧
    (∀ m c, close_async r (some (.eventHubError m c)) =
      ({ r with error := some (.eventHubError m c) }, [.handlerClose])) ∧
    (∀ retry m, close_async r (some (.base (.linkDetach retry m))) =
      ({ r with error := some (.eventHubError m (some (.linkDetach retry m))) },
       [.handlerClose])) ∧
    (∀ retry m, close_async r (some (.base (.connectionClose retry m))) =
      ({ r with
         error := some (.eventHubError m (some (.connectionClose retry m))) },
       [.handlerClose])) ∧
    (∀ m, close_async r (some (.base (.messageHandlerError m))) =
      ({ r with error := some (.eventHubError m none) }, [.handlerClose])) ∧
    (∀ m, close_async r (some (.base (.other m))) =
      ({ r with error := some (.eventHubError m none) }, [.handlerClose])) ∧
    close_async r none =
      ({ r with
         error := some (.eventHubError "This receive handler is now closed." none) },
       [.handlerClose]) := by
  refine ⟨fun addr retry => ?_, fun m c => ?_, fun retry m => ?_,
    fun retry m => ?_, fun m => ?_, fun m => ?_, ?_⟩ <;>
    simp [close_async, hne, Exc.str, BaseExc.str]

/-- C6 witness: a redirect close stores the instruction without an error yet
closes the link, and a connection-close close stores a wrapped error and
closes the link. -/
theorem C6_witness :
    demoReceiver.error = none ∧
    close_async demoReceiver
        (some (.base (.linkRedirect "amqps://alt.host/hub" false))) =
      ({ demoReceiver with redirected := some "amqps://alt.host/hub" },
       [.handlerClose]) ∧
    close_async demoReceiver (some (.base (.connectionClose false "conn gone"))) =
      ({ demoReceiver with
         error := some (.eventHubError "conn gone"
           (some (.connectionClose false "conn gone"))) },
       [.handlerClose]) := by
  obtain ⟨hr, he, hd, hc, hm, ho, hn⟩ := C6_close_classification demoReceiver rfl
  exact ⟨rfl, hr "amqps://alt.host/hub" false, hc false "conn gone"⟩

/-- C7 counterexample: a timeout of 0 and an absent timeout map to the same
transport timeout value, and receive issues the identical pull operation in
the two cases — they are not distinct, refuting the claim. -/
theorem C7_counterexample :
    timeoutMs (some 0) = timeoutMs none ∧
    (receive demoReceiver (some 10) (some 0) emptyEnv).ops =
      (receive demoReceiver (some 10) none emptyEnv).ops := by
  decide

/-- C7 amended: the batch pull is bounded by the converted caller timeout,
where both a timeout of 0 and an absent timeout map to the transport
timeout value 0 (the transport default behavior) — a single shared value,
not two distinct ones — and a nonzero timeout t maps to 1000 times t
milliseconds; receive passes exactly this converted value to the pull. -/
theorem C7_timeout_mapping (r : Receiver) (mb : Option Nat) (env : Env)
    (t : Int) (hne : r.error = none) :
    timeoutMs none = 0 ∧ timeoutMs (some 0) = 0 ∧
    (t ≠ 0 → timeoutMs (some t) = 1000 * t) ∧
    ∀ u : Option Int, (receive r mb u env).ops.head? =
      some (.pullBatch mb (timeoutMs u)) := by
  refine ⟨rfl, rfl, fun h => ?_, fun u => receive_head_pull r mb u env hne⟩
  simp [timeoutMs, h]

/-- C7 witness: a five second timeout is converted to 5000 milliseconds and
handed to the pull, while 0 and absent both convert to 0. -/
theorem C7_witness :
    timeoutMs none = 0 ∧ timeoutMs (some 0) = 0 ∧
    timeoutMs (some 5) = 5000 ∧
    (receive demoReceiver (some 10) (some 5) emptyEnv).ops.head? =
      some (.pullBatch (some 10) 5000) := by
  obtain ⟨h1, h2, h3, h4⟩ := C7_timeout_mapping demoReceiver (some 10)
    emptyEnv 5 rfl
  refine ⟨h1, h2, by rw [h3 (by decide)]; decide, ?_⟩
  have h5 := h4 (some 5)
  rw [h5]
  decide

/-- C8 counterexample: receive with maxBatchSize 0 on a receiver with no
stored error does invoke the transport link: the pull operation is issued
with batch size 0, refuting the claim that this case returns without
invoking the transport. -/
theorem C8_counterexample :
    (receive demoReceiver (some 0) none emptyEnv).ops =
      [TransportOp.pullBatch (some 0) 0] := by
  decide

/-- C8 amended: receive on an already errored receiver fails immediately
with the stored error and no transport operation; receive with maxBatchSize
0 on a non-errored receiver still invokes the transport, passing the 0
through as the pull batch size. -/
theorem C8_short_circuit_only_on_error (r : Receiver) (mb : Option Nat)
    (t : Option Int) (env : Env) :
    (∀ err, r.error = some err →
      receive r mb t env = ⟨r, .raised err, [], []⟩) ∧
    (r.error = none →
      (receive r (some 0) t env).ops.head? =
        some (.pullBatch (some 0) (timeoutMs t))) :=
  ⟨fun err h => receive_errored r mb t env err h,
   fun hne => receive_head_pull r (some 0) t env hne⟩

/-- C8 witness: the errored receiver fails with its stored error and an
empty operation trace, while a fresh receiver with batch size 0 issues a
pull with size 0. -/
theorem C8_witness :
    erroredReceiver.error = some (.eventHubError "boom" none) ∧
    receive erroredReceiver none none emptyEnv =
      ⟨erroredReceiver, .raised (.eventHubError "boom" none), [], []⟩ ∧
    demoReceiver.error = none ∧
    (receive demoReceiver (some 0) none emptyEnv).ops.head? =
      some (.pullBatch (some 0) 0) := by
  obtain ⟨h1, h2⟩ := C8_short_circuit_only_on_error erroredReceiver none none
    emptyEnv
  obtain ⟨h3, h4⟩ := C8_short_circuit_only_on_error demoReceiver none none
    emptyEnv
  exact ⟨rfl, h1 _ rfl, rfl, h4 rfl⟩

/-- C9: when a terminal error is already stored, close is a no-op for any
supplied exception: the receiver (and so the stored error) is unchanged and
the transport link is not contacted. -/
theorem C9_close_idempotent_when_errored (r : Receiver) (err : Exc)
    (h : r.error = some err) (exc : Option Exc) :
    close_async r exc = (r, []) := by
  unfold close_async
  rw [h]

/-- C9 witness: closing an already errored receiver again, with or without a
new exception, changes nothing and performs no transport operation. -/
theorem C9_witness :
    erroredReceiver.error = some (.eventHubError "boom" none) ∧
    close_async erroredReceiver (some (.base (.other "later"))) =
      (erroredReceiver, []) ∧
    close_async erroredReceiver none = (erroredReceiver, []) :=
  ⟨rfl, C9_close_idempotent_when_errored erroredReceiver _ rfl _,
   C9_close_idempotent_when_errored erroredReceiver _ rfl none⟩

/-- C10: close with no exception argument on a receiver with no prior error
stores the generic closed error and closes the handler, and every
subsequent receive raises that stored error without any transport call, so
a cleanly closed receiver behaves at the receive interface exactly like an
errored one. -/
theorem C10_clean_close_stores_generic_error (r : Receiver)
    (hne : r.error = none) :
    (close_async r none).1 =
      { r with
        error := some (.eventHubError "This receive handler is now closed." none) } ∧
    (close_async r none).2 = [.handlerClose] ∧
    ∀ (mb : Option Nat) (t : Option Int) (env : Env),
      receive (close_async r none).1 mb t env =
        ⟨(close_async r none).1,
         .raised (.eventHubError "This receive handler is now closed." none),
         [], []⟩ := by
  have h : close_async r none =
      ({ r with
         error := some (.eventHubError "This receive handler is now closed." none) },
       [.handlerClose]) := by
    unfold close_async
    rw [hne]
  rw [h]
  exact ⟨rfl, rfl, fun mb t env => receive_errored _ mb t env _ rfl⟩

/-- C10 witness: after a clean close of a fresh receiver, receive raises the
generic closed error immediately with no transport operation. -/
theorem C10_witness :
    demoReceiver.error = none ∧
    (close_async demoReceiver none).1.error =
      some (.eventHubError "This receive handler is now closed." none) ∧
    receive (close_async demoReceiver none).1 (some 5) (some 1) emptyEnv =
      ⟨(close_async demoReceiver none).1,
       .raised (.eventHubError "This receive handler is now closed." none),
       [], []⟩ := by
  obtain ⟨h1, h2, h3⟩ := C10_clean_close_stores_generic_error demoReceiver rfl
  exact ⟨rfl, by rw [h1], h3 (some 5) (some 1) emptyEnv⟩

end EventHubs
